import Mathlib

/-!
Shallow embedding of the `ReadmePreview` component
(`src/src/components/ReadmePreview.tsx`).

The component filters an ordered list of elements by an audience view mode
and generates a markdown string from the survivors, one text template per
element kind.  The effectful `downloadMarkdown` handler is embedded as the
pure description of the download request it issues.
-/

/-- View modes: `type ViewMode = 'developer' | 'recruiter' | 'client'`. -/
inductive ViewMode
  | developer
  | recruiter
  | client
deriving DecidableEq, Repr

/-- An element of the README.  The component's `ElementType` is a tagged
union whose declaration lives outside this excerpt; the component itself
dispatches on the string field `type` and reads the kind-specific fields
below, so the union is flattened into one structure with the fields the
component accesses (absent fields default to empty values). -/
structure ElementType where
  type : String
  id : String := ""
  content : String := ""
  username : String := ""
  repository : String := ""
  layout : String := ""
  technologies : List String := []
  alt : String := ""
  src : String := ""
  language : String := ""
  headers : List String := []
  rows : List (List String) := []
  dividerStyle : String := ""
deriving DecidableEq, Repr

/-- The static `visibilityMap: Record<string, ViewMode[]>` object literal:
`none` models the absence of a key. -/
def visibilityMap : String → Option (List ViewMode)
  | "header" => some [.developer, .recruiter, .client]
  | "description" => some [.developer, .recruiter, .client]
  | "badges" => some [.developer, .recruiter]
  | "installation" => some [.developer]
  | "usage" => some [.developer, .client]
  | "codeblock" => some [.developer]
  | "features" => some [.developer, .recruiter, .client]
  | "screenshot" => some [.recruiter, .client]
  | "demo" => some [.recruiter, .client]
  | "api" => some [.developer]
  | "contributing" => some [.developer]
  | "license" => some [.developer, .recruiter]
  | "contact" => some [.developer, .recruiter, .client]
  | "changelog" => some [.developer]
  | "roadmap" => some [.developer, .recruiter]
  | "acknowledgments" => some [.developer]
  | "faq" => some [.client]
  | "support" => some [.client]
  | "sponsors" => some [.recruiter, .client]
  | "stats" => some [.recruiter]
  | "skills" => some [.recruiter]
  | "tech" => some [.developer, .recruiter]
  | "highlights" => some [.recruiter, .client]
  | "branding" => some [.client]
  | "banner" => some [.client, .recruiter]
  | "logo" => some [.client, .recruiter]
  | _ => none

/-- `filteredElements`: keep the elements whose kind's allowed view modes
(defaulting to all three via `|| ['developer','recruiter','client']`)
contain the current mode. -/
def filteredElements (elements : List ElementType) (viewMode : ViewMode) : List ElementType :=
  elements.filter (fun element =>
    ((visibilityMap element.type).getD [.developer, .recruiter, .client]).contains viewMode)

/-- JavaScript regex `\s`: the whitespace characters (by code point). -/
def isJsWhitespace (c : Char) : Bool :=
  let n := c.toNat
  n == 0x20 || n == 0x9 || n == 0xA || n == 0xD || n == 0xB || n == 0xC ||
  n == 0xA0 || n == 0x1680 || (0x2000 ≤ n && n ≤ 0x200A) ||
  n == 0x2028 || n == 0x2029 || n == 0x202F || n == 0x205F || n == 0x3000 || n == 0xFEFF

/-- Character-list worker for `replace(/\s+/g, '%20')`: each maximal run of
whitespace becomes one `%20`. -/
def replaceWsGo : List Char → Bool → List Char
  | [], _ => []
  | c :: rest, prevWs =>
    if isJsWhitespace c then
      (if prevWs then [] else ['%', '2', '0']) ++ replaceWsGo rest true
    else
      c :: replaceWsGo rest false

/-- `content.replace(/\s+/g, '%20')` from the badge template. -/
def replaceWhitespaceRuns (s : String) : String :=
  String.mk (replaceWsGo s.data false)

/-- The indexed `reduce` of the tech-stack grid layout: element at index `i`
starts a new row when `i % 3 === 0` and is pushed onto the last row
otherwise. -/
def techRowsGo : Nat → List (List String) → List String → List (List String)
  | _, acc, [] => acc
  | i, acc, tech :: rest =>
    techRowsGo (i + 1)
      (if i % 3 == 0 then acc ++ [[tech]]
       else acc.dropLast ++ [((acc.getLast?).getD []) ++ [tech]])
      rest

/-- The grid rows built by `technologies.reduce(..., [])`. -/
def techGridRows (technologies : List String) : List (List String) :=
  techRowsGo 0 [] technologies

/-- `.join('')` on a list of strings: plain concatenation. -/
def concatStrings : List String → String
  | [] => ""
  | s :: rest => s ++ concatStrings rest

/-- The per-element body of `generateMarkdown`'s `map`: the `switch` on
`element.type`, one template per handled kind, empty string by default.
A JS `switch` in which every case returns is an if-else chain. -/
def elementMarkdown (element : ElementType) : String :=
  if element.type = "header" then
    "# " ++ element.content ++ "\n\n"
  else if element.type = "text" then
    element.content ++ "\n\n"
  else if element.type = "banner" then
    "<div align=\"center\">\n  <h1>" ++ element.content ++ "</h1>\n</div>\n\n"
  else if element.type = "git-contribution" then
    "## 🤝 How to Contribute\n\n1. Fork the repository\n2. Clone your fork: `git clone https://github.com/"
      ++ element.username ++ "/" ++ element.repository
      ++ ".git`\n3. Create a feature branch: `git checkout -b feature-name`\n4. Make your changes and commit: `git commit -m \"Add feature\"`\n5. Push to your fork: `git push origin feature-name`\n6. Create a Pull Request\n\n"
  else if element.type = "tech-stack" then
    if element.layout = "badges" then
      "## ⚡ Tech Stack\n\n"
        ++ String.intercalate " " (element.technologies.map (fun tech =>
             "![" ++ tech ++ "](https://img.shields.io/badge/-" ++ tech
               ++ "-05122A?style=flat&logo=" ++ tech.toLower ++ ")"))
        ++ "\n\n"
    else if element.layout = "list" then
      "## ⚡ Tech Stack\n\n"
        ++ String.intercalate "\n" (element.technologies.map (fun tech => "- " ++ tech))
        ++ "\n\n"
    else
      "## ⚡ Tech Stack\n\n| | | |\n|---|---|---|\n"
        ++ String.intercalate "\n"
             ((techGridRows element.technologies).map (fun row =>
               "| " ++ String.intercalate " | " row ++ " |"))
        ++ "\n\n"
  else if element.type = "image" then
    "![" ++ element.alt ++ "](" ++ element.src ++ ")\n\n"
  else if element.type = "code-block" then
    "```" ++ (if element.language = "" then "javascript" else element.language)
      ++ "\n" ++ element.content ++ "\n```\n\n"
  else if element.type = "badge" then
    "![" ++ element.content ++ "](https://img.shields.io/badge/-"
      ++ replaceWhitespaceRuns element.content ++ "-brightgreen)\n\n"
  else if element.type = "table" then
    let headerRow := "| " ++ String.intercalate " | " element.headers ++ " |"
    let separatorRow :=
      "| " ++ String.intercalate " | " (element.headers.map (fun _ => "---")) ++ " |"
    let dataRows :=
      String.intercalate "\n" (element.rows.map (fun row =>
        "| " ++ String.intercalate " | " row ++ " |"))
    headerRow ++ "\n" ++ separatorRow ++ "\n" ++ dataRows ++ "\n\n"
  else if element.type = "divider" then
    if element.dividerStyle = "dots" then
      "<div align=\"center\">• • •</div>\n\n"
    else if element.dividerStyle = "stars" then
      "<div align=\"center\">⭐ ⭐ ⭐</div>\n\n"
    else
      "---\n\n"
  else if element.type = "installation" then
    "## Installation\n\n```bash\n" ++ element.content ++ "\n```\n\n"
  else
    ""

/-- `generateMarkdown`: map the switch over the filtered elements and
concatenate with `.join('')`. -/
def generateMarkdown (elements : List ElementType) (viewMode : ViewMode) : String :=
  concatStrings ((filteredElements elements viewMode).map elementMarkdown)

/-- A `Blob` as constructed by `new Blob([markdown], { type })`. -/
structure BlobData where
  parts : List String
  mimeType : String
deriving DecidableEq, Repr

/-- The download request issued by the anchor-click in `downloadMarkdown`. -/
structure DownloadAction where
  blob : BlobData
  fileName : String
deriving DecidableEq, Repr

/-- `downloadMarkdown`: build a Blob from the generated markdown with MIME
type `text/markdown` and download it as `README.md`. -/
def downloadMarkdown (elements : List ElementType) (viewMode : ViewMode) : DownloadAction :=
  let markdown := generateMarkdown elements viewMode
  { blob := { parts := [markdown], mimeType := "text/markdown" }
    fileName := "README.md" }

/-- Spec-side restatement of the visibility rule, for the refinement claim:
an element's kind is visible in a mode iff the static map sends the kind to
a set of modes containing it, kinds without an entry being visible in every
mode. -/
def kindVisibleSpec (element : ElementType) (viewMode : ViewMode) : Bool :=
  match visibilityMap element.type with
  | some allowed => allowed.contains viewMode
  | none => true

/-- Reference chunking: split a list into consecutive groups of three, the
last group possibly shorter. -/
def chunk3 : List String → List (List String)
  | [] => []
  | [a] => [[a]]
  | [a, b] => [[a, b]]
  | a :: b :: c :: rest => [a, b, c] :: chunk3 rest

/-! ## Helper lemmas -/

/-- Concatenation distributes over `concatStrings`. -/
theorem concatStrings_append (as bs : List String) :
    concatStrings (as ++ bs) = concatStrings as ++ concatStrings bs := by
  induction as with
  | nil => simp [concatStrings, String.empty_append]
  | cons a as ih => simp [concatStrings, ih, String.append_assoc]

/-- `generateMarkdown` distributes over list concatenation. -/
theorem generateMarkdown_append (l1 l2 : List ElementType) (mode : ViewMode) :
    generateMarkdown (l1 ++ l2) mode =
      generateMarkdown l1 mode ++ generateMarkdown l2 mode := by
  unfold generateMarkdown filteredElements
  rw [List.filter_append, List.map_append, concatStrings_append]

/-- The indexed reduce of the grid layout computes the reference chunking,
for any starting index that is a multiple of three. -/
theorem techRowsGo_eq (techs : List String) :
    ∀ (i : Nat) (acc : List (List String)), i % 3 = 0 →
      techRowsGo i acc techs = acc ++ chunk3 techs := by
  induction techs using chunk3.induct with
  | case1 =>
    intro i acc h
    simp [techRowsGo, chunk3]
  | case2 a =>
    intro i acc h
    simp [techRowsGo, chunk3, h]
  | case3 a b =>
    intro i acc h
    have h1 : (i + 1) % 3 = 1 := by omega
    simp [techRowsGo, chunk3, h, h1, List.dropLast_concat, List.getLast?_concat]
  | case4 a b c rest ih =>
    intro i acc h
    have h1 : (i + 1) % 3 = 1 := by omega
    have h2 : (i + 1 + 1) % 3 = 2 := by omega
    simp [techRowsGo, h, h1, h2, List.dropLast_concat, List.getLast?_concat]
    rw [ih (i + 1 + 1 + 1) (acc ++ [[a, b, c]]) (by omega), chunk3]
    simp

/-- Flattening the reference chunking recovers the input list. -/
theorem chunk3_flatten (l : List String) : (chunk3 l).flatten = l := by
  induction l using chunk3.induct with
  | case1 => rfl
  | case2 a => rfl
  | case3 a b => rfl
  | case4 a b c rest ih => simp [chunk3, ih]

/-- Every chunk holds at most three entries. -/
theorem chunk3_length_le (l : List String) : ∀ row ∈ chunk3 l, row.length ≤ 3 := by
  induction l using chunk3.induct with
  | case1 => simp [chunk3]
  | case2 a => simp [chunk3]
  | case3 a b => simp [chunk3]
  | case4 a b c rest ih =>
    intro row hrow
    rw [chunk3] at hrow
    rcases List.mem_cons.mp hrow with h | h
    · simp [h]
    · exact ih row h

/-- Every chunk but the last holds exactly three entries. -/
theorem chunk3_dropLast_length (l : List String) :
    ∀ row ∈ (chunk3 l).dropLast, row.length = 3 := by
  induction l using chunk3.induct with
  | case1 => simp [chunk3]
  | case2 a => simp [chunk3]
  | case3 a b => simp [chunk3]
  | case4 a b c rest ih =>
    intro row hrow
    rw [chunk3] at hrow
    cases hr : chunk3 rest with
    | nil => rw [hr] at hrow; simp at hrow
    | cons y ys =>
      rw [hr, List.dropLast_cons_of_ne_nil (by simp)] at hrow
      rcases List.mem_cons.mp hrow with h | h
      · simp [h]
      · exact ih row (hr ▸ h)

/-! ## Claims -/

/-- C1: for every list of elements and every view mode, the visibility
filter returns the order-preserving subsequence of elements whose kind
maps, under the static visibility map, to a set of view modes containing
the current mode, elements of unmapped kinds being kept in every mode
(the `none` branch of `kindVisibleSpec`). -/
theorem c1_visibility_filter_refines_map (elements : List ElementType) (mode : ViewMode) :
    (filteredElements elements mode).Sublist elements ∧
    filteredElements elements mode =
      elements.filter (fun e => kindVisibleSpec e mode) := by
  constructor
  · exact List.filter_sublist elements
  · apply List.filter_congr
    intro e _
    unfold kindVisibleSpec
    cases hv : visibilityMap e.type with
    | some allowed => simp
    | none => cases mode <;> rfl

/-- C2: an element whose kind is none of the eleven kinds handled by the
markdown generator's switch maps to the empty string and contributes
nothing to the concatenated output, with no error raised (the embedding is
total). -/
theorem c2_unknown_kind_yields_empty (e : ElementType)
    (h : e.type ∉ ["header", "text", "banner", "git-contribution", "tech-stack",
      "image", "code-block", "badge", "table", "divider", "installation"]) :
    elementMarkdown e = "" ∧
    ∀ (l1 l2 : List ElementType) (mode : ViewMode),
      generateMarkdown (l1 ++ e :: l2) mode = generateMarkdown (l1 ++ l2) mode := by
  simp at h
  obtain ⟨h1, h2, h3, h4, h5, h6, h7, h8, h9, h10, h11⟩ := h
  have hempty : elementMarkdown e = "" := by
    simp [elementMarkdown, h1, h2, h3, h4, h5, h6, h7, h8, h9, h10, h11]
  refine ⟨hempty, ?_⟩
  intro l1 l2 mode
  have hsplit : l1 ++ e :: l2 = (l1 ++ [e]) ++ l2 := by simp
  rw [hsplit, generateMarkdown_append (l1 ++ [e]) l2, generateMarkdown_append l1 [e],
    generateMarkdown_append l1 l2]
  have hsingle : generateMarkdown [e] mode = "" := by
    unfold generateMarkdown filteredElements
    by_cases hp : mode ∈ (visibilityMap e.type).getD [.developer, .recruiter, .client]
    · simp [List.filter, hp, concatStrings, hempty, String.append_empty]
    · simp [List.filter, hp, concatStrings]
  rw [hsingle, String.append_empty]

/-- C2 witness: the kind `usage` is not handled by the switch; its element
renders as the empty string and adding it to a list leaves the generated
markdown unchanged. -/
theorem c2_unknown_kind_yields_empty_witness :
    elementMarkdown { type := "usage", content := "run it" } = "" ∧
    generateMarkdown
        ([{ type := "header", content := "T" }] ++
          { type := "usage", content := "run it" } :: []) ViewMode.developer =
      generateMarkdown ([{ type := "header", content := "T" }] ++ []) ViewMode.developer :=
  ⟨(c2_unknown_kind_yields_empty { type := "usage", content := "run it" } (by decide)).1,
   (c2_unknown_kind_yields_empty { type := "usage", content := "run it" } (by decide)).2
     [{ type := "header", content := "T" }] [] .developer⟩

/-- C3: the visibility map has no entry for the kinds `tech-stack` and
`code-block` rendered by the generator (its keys are `tech` and
`codeblock`), so elements of those kinds are kept by the filter in every
view mode. -/
theorem c3_generator_kinds_never_restricted (e : ElementType) (mode : ViewMode)
    (h : e.type = "tech-stack" ∨ e.type = "code-block") :
    visibilityMap "tech-stack" = none ∧ visibilityMap "code-block" = none ∧
    ∀ elements : List ElementType, e ∈ elements → e ∈ filteredElements elements mode := by
  refine ⟨rfl, rfl, ?_⟩
  intro elements he
  unfold filteredElements
  rw [List.mem_filter]
  refine ⟨he, ?_⟩
  rcases h with h | h <;> rw [h] <;> cases mode <;> rfl

/-- C3 witness: a `tech-stack` element survives the filter even in client
mode, where the map would hide the kinds `tech` and `codeblock`. -/
theorem c3_generator_kinds_never_restricted_witness :
    visibilityMap "tech-stack" = none ∧ visibilityMap "code-block" = none ∧
    ({ type := "tech-stack" } : ElementType) ∈
      filteredElements [{ type := "tech-stack" }] ViewMode.client :=
  ⟨(c3_generator_kinds_never_restricted { type := "tech-stack" } ViewMode.client
      (Or.inl rfl)).1,
   (c3_generator_kinds_never_restricted { type := "tech-stack" } ViewMode.client
      (Or.inl rfl)).2.1,
   (c3_generator_kinds_never_restricted { type := "tech-stack" } ViewMode.client
      (Or.inl rfl)).2.2 [{ type := "tech-stack" }] (List.mem_singleton_self _)⟩

/-- C4: a divider element renders exactly as
`<div align="center">• • •</div>` followed by a blank line when its style
field is `dots`, and exactly as `---` followed by a blank line when its
style is neither `dots` nor `stars`. -/
theorem c4_divider_dots_and_default (e : ElementType) (h : e.type = "divider") :
    (e.dividerStyle = "dots" →
      elementMarkdown e = "<div align=\"center\">• • •</div>\n\n") ∧
    (e.dividerStyle ≠ "dots" → e.dividerStyle ≠ "stars" →
      elementMarkdown e = "---\n\n") := by
  constructor
  · intro hd
    simp [elementMarkdown, h, hd]
  · intro hd hs
    simp [elementMarkdown, h, hd, hs]

/-- C4 witness: concrete dividers with style `dots` and with an unfamiliar
style render to the two exact strings. -/
theorem c4_divider_dots_and_default_witness :
    elementMarkdown { type := "divider", dividerStyle := "dots" } =
      "<div align=\"center\">• • •</div>\n\n" ∧
    elementMarkdown { type := "divider", dividerStyle := "solid" } = "---\n\n" :=
  ⟨(c4_divider_dots_and_default { type := "divider", dividerStyle := "dots" } rfl).1 rfl,
   (c4_divider_dots_and_default { type := "divider", dividerStyle := "solid" } rfl).2
     (by decide) (by decide)⟩

/-- C5: a table element renders as the header row, then a separator row
holding one `---` cell per header (`List.replicate` over the column count),
then the data rows in input order. -/
theorem c5_table_row_structure (e : ElementType) (h : e.type = "table") :
    elementMarkdown e =
      ("| " ++ String.intercalate " | " e.headers ++ " |") ++ "\n" ++
      ("| " ++ String.intercalate " | " (List.replicate e.headers.length "---") ++ " |") ++ "\n" ++
      String.intercalate "\n" (e.rows.map (fun row =>
        "| " ++ String.intercalate " | " row ++ " |")) ++ "\n\n" := by
  simp [elementMarkdown, h, List.map_const', String.append_assoc]

/-- C5 witness: a concrete two-column table renders with its header row, a
two-cell separator row, and its two data rows in order. -/
theorem c5_table_row_structure_witness :
    ({ type := "table", headers := ["Name", "Stars"], rows := [["x", "1"], ["y", "2"]] } :
        ElementType).type = "table" ∧
    elementMarkdown
        { type := "table", headers := ["Name", "Stars"], rows := [["x", "1"], ["y", "2"]] } =
      "| Name | Stars |\n| --- | --- |\n| x | 1 |\n| y | 2 |\n\n" :=
  ⟨rfl,
   c5_table_row_structure
     { type := "table", headers := ["Name", "Stars"], rows := [["x", "1"], ["y", "2"]] } rfl⟩

/-- C6: the visibility filter is idempotent: filtering an already filtered
list again with the same mode is a no-op. -/
theorem c6_filter_idempotent (elements : List ElementType) (mode : ViewMode) :
    filteredElements (filteredElements elements mode) mode =
      filteredElements elements mode := by
  unfold filteredElements
  rw [List.filter_filter]
  apply List.filter_congr
  intro e _
  rw [Bool.and_self]

/-- C7: markdown generation is a deterministic pure function of the element
list and the view mode: equal inputs give equal output strings.  Purity is
embedded by `generateMarkdown` being a function of exactly these inputs. -/
theorem c7_generate_markdown_deterministic (es1 es2 : List ElementType)
    (m1 m2 : ViewMode) (h1 : es1 = es2) (h2 : m1 = m2) :
    generateMarkdown es1 m1 = generateMarkdown es2 m2 := by
  rw [h1, h2]

/-- C7 witness: two runs on the same concrete list and mode agree. -/
theorem c7_generate_markdown_deterministic_witness :
    generateMarkdown [{ type := "text", content := "hello" }] ViewMode.recruiter =
      generateMarkdown [{ type := "text", content := "hello" }] ViewMode.recruiter :=
  c7_generate_markdown_deterministic
    [{ type := "text", content := "hello" }] [{ type := "text", content := "hello" }]
    ViewMode.recruiter ViewMode.recruiter rfl rfl

/-- C8: a header element renders under the `# text` template: `# `
followed by the element's content and a blank line. -/
theorem c8_header_template (e : ElementType) (h : e.type = "header") :
    elementMarkdown e = "# " ++ e.content ++ "\n\n" := by
  simp [elementMarkdown, h]

/-- C8 witness: a concrete header element renders to `# My Project` and a
blank line. -/
theorem c8_header_template_witness :
    ({ type := "header", content := "My Project" } : ElementType).type = "header" ∧
    elementMarkdown { type := "header", content := "My Project" } =
      "# " ++ "My Project" ++ "\n\n" :=
  ⟨rfl, c8_header_template { type := "header", content := "My Project" } rfl⟩

/-- C9: for every element list and view mode the download action builds its
file artifact from exactly the generated markdown string, names the file
`README.md`, and gives it MIME type `text/markdown`. -/
theorem c9_download_artifact (elements : List ElementType) (mode : ViewMode) :
    (downloadMarkdown elements mode).fileName = "README.md" ∧
    (downloadMarkdown elements mode).blob.mimeType = "text/markdown" ∧
    (downloadMarkdown elements mode).blob.parts = [generateMarkdown elements mode] :=
  ⟨rfl, rfl, rfl⟩

/-- C10: for a tech-stack element whose layout is neither `badges` nor
`list`, the generator arranges the technologies into rows holding the input
in order (flattening the rows recovers the input), every row except
possibly the last holding exactly three entries and every row at most
three, and renders those rows as the grid table. -/
theorem c10_tech_grid_rows (e : ElementType) (h : e.type = "tech-stack")
    (hb : e.layout ≠ "badges") (hl : e.layout ≠ "list") :
    (techGridRows e.technologies).flatten = e.technologies ∧
    (∀ row ∈ (techGridRows e.technologies).dropLast, row.length = 3) ∧
    (∀ row ∈ techGridRows e.technologies, row.length ≤ 3) ∧
    elementMarkdown e =
      "## ⚡ Tech Stack\n\n| | | |\n|---|---|---|\n"
        ++ String.intercalate "\n"
             ((techGridRows e.technologies).map (fun row =>
               "| " ++ String.intercalate " | " row ++ " |"))
        ++ "\n\n" := by
  have hg : techGridRows e.technologies = chunk3 e.technologies := by
    unfold techGridRows
    rw [techRowsGo_eq e.technologies 0 [] rfl]
    rfl
  refine ⟨?_, ?_, ?_, ?_⟩
  · rw [hg]; exact chunk3_flatten e.technologies
  · rw [hg]; exact chunk3_dropLast_length e.technologies
  · rw [hg]; exact chunk3_length_le e.technologies
  · simp [elementMarkdown, h, hb, hl]

/-- C10 witness: four technologies in a grid layout chunk into a full row
of three and a final row of one, and render accordingly. -/
theorem c10_tech_grid_rows_witness :
    (techGridRows ["react", "vite", "ts", "node"]).flatten =
      ["react", "vite", "ts", "node"] ∧
    elementMarkdown
        { type := "tech-stack", layout := "grid",
            technologies := ["react", "vite", "ts", "node"] } =
      "## ⚡ Tech Stack\n\n| | | |\n|---|---|---|\n| react | vite | ts |\n| node |\n\n" :=
  ⟨(c10_tech_grid_rows
      { type := "tech-stack", layout := "grid", technologies := ["react", "vite", "ts", "node"] }
      rfl (by decide) (by decide)).1,
   (c10_tech_grid_rows
      { type := "tech-stack", layout := "grid", technologies := ["react", "vite", "ts", "node"] }
      rfl (by decide) (by decide)).2.2.2⟩
